import Mathlib

/-!
Verification of the Tier Progression Analytics Engine of the
fellowship-dashboard repository.

The engine turns per-observation domain/tier classification rows into
aggregated tier-mix statistics, term-to-term movement classifications,
three-term pattern labels, segment-gap comparisons and strategic
recommendations.  Data lives in pandas dataframes in the source; here the
rows are explicit structures, floats are rationals, and each analytics
routine is embedded as a pure Lean function mirroring the source line by
line.
-/

namespace FellowshipDashboard

/-- Canonical academic terms, ordered Term 1 < Term 2 < Term 3 < Term 4
(TERM_ORDER in pages/Enhance.py). -/
inductive Term where
  | t1 | t2 | t3 | t4
deriving DecidableEq, Repr

/-- Numeric position of a term in the canonical ordering; sorting the
string labels Term 1 .. Term 4 (as pandas does) coincides with sorting by
this number. -/
def Term.order : Term → Nat
  | .t1 => 1
  | .t2 => 2
  | .t3 => 3
  | .t4 => 4

/-- Proficiency tiers of one observation within a domain
(the classification column: Tier 1, Tier 2, Tier 3). -/
inductive Tier where
  | tier1 | tier2 | tier3
deriving DecidableEq, Repr

/-- One cleaned observation row of a single aggregation pass in
load_and_process_data (pages/Enhance.py): for the Overall pass segment is
none, for a segmented pass it is the row value of the segment column
(rows with a null segment are excluded from a segmented pass by pandas
groupby before this point). -/
structure ObservationRecord where
  term : Term
  domain : String
  tier : Tier
  score : ℚ
  segment : Option String
deriving DecidableEq, Repr

/-- One output row of the aggregation in load_and_process_data
(pages/Enhance.py lines 89-103).  The per-tier average scores are Option
valued: pandas mean of an empty selection is NaN, embedded as none. -/
structure AggregatedStat where
  term : Term
  domain : String
  segment_value : Option String
  tier_mix_t1_pct : ℚ
  tier_mix_t2_pct : ℚ
  tier_mix_t3_pct : ℚ
  avg_tier_score_t1 : Option ℚ
  avg_tier_score_t2 : Option ℚ
  avg_tier_score_t3 : Option ℚ
  domain_avg : ℚ
  dominant_index : ℚ
  observation_count : Nat
deriving DecidableEq, Repr

/-- The rows of one (term, domain, segment) group: the source groups the
dataframe by the group columns, so a group holds exactly the rows whose
key fields match. -/
def bucket (records : List ObservationRecord) (t : Term) (d : String)
    (s : Option String) : List ObservationRecord :=
  records.filter fun r =>
    decide (r.term = t) && decide (r.domain = d) && decide (r.segment = s)

/-- Number of rows of a group carrying a given tier
(value_counts on the classification column, Enhance.py line 72). -/
def tierCount (g : List ObservationRecord) (t : Tier) : Nat :=
  (g.filter fun r => decide (r.tier = t)).length

/-- Mean of the scores of a list of rows; none when the list is empty
(pandas mean of an empty selection is NaN). -/
def meanScore (g : List ObservationRecord) : Option ℚ :=
  if g.length = 0 then none else some ((g.map (·.score)).sum / g.length)

/-- The aggregated statistics of one non-empty group, mirroring
Enhance.py lines 71-103: tier percentages are 100 * tier_count / total,
the dominant index is (1*t1% + 2*t2% + 3*t3%) / 100, the count is the
group size. -/
def mkStat (t : Term) (d : String) (s : Option String)
    (g : List ObservationRecord) : AggregatedStat :=
  let total : Nat := g.length
  let t1p : ℚ := (tierCount g .tier1) / total * 100
  let t2p : ℚ := (tierCount g .tier2) / total * 100
  let t3p : ℚ := (tierCount g .tier3) / total * 100
  { term := t
    domain := d
    segment_value := s
    tier_mix_t1_pct := t1p
    tier_mix_t2_pct := t2p
    tier_mix_t3_pct := t3p
    avg_tier_score_t1 := meanScore (g.filter fun r => decide (r.tier = .tier1))
    avg_tier_score_t2 := meanScore (g.filter fun r => decide (r.tier = .tier2))
    avg_tier_score_t3 := meanScore (g.filter fun r => decide (r.tier = .tier3))
    domain_avg := (g.map (·.score)).sum / total
    dominant_index := (1 * t1p + 2 * t2p + 3 * t3p) / 100
    observation_count := total }

/-- The distinct grouping keys present in the data (pandas groupby
enumerates exactly the keys occurring in some row; keys of empty
categorical groups are also enumerated by pandas but their groups fail
the size check below identically, so they contribute nothing). -/
def keys (records : List ObservationRecord) :
    List (Term × String × Option String) :=
  (records.map fun r => (r.term, r.domain, r.segment)).dedup

/-- The aggregation loop of load_and_process_data for one grouping pass
(Enhance.py lines 53-103): every group of fewer than 3 rows is skipped
(line 57), each remaining group yields one AggregatedStat row. -/
def aggregate (records : List ObservationRecord) : List AggregatedStat :=
  (keys records).filterMap fun k =>
    if (bucket records k.1 k.2.1 k.2.2).length < 3 then none
    else some (mkStat k.1 k.2.1 k.2.2 (bucket records k.1 k.2.1 k.2.2))

/-- Movement labels of the term-to-term classifier
(movement.py line 36 and tier_progression.py line 384). -/
inductive Movement where
  | improvement | decline | stable
deriving DecidableEq, Repr

/-- The movement classification expression of
enhanced_tier_analysis/analysis/movement.py line 36:
Improvement if t3_change > 2 else Decline if t3_change < -2 else Stable. -/
def classifyMovement (t3_change : ℚ) : Movement :=
  if t3_change > 2 then .improvement
  else if t3_change < -2 then .decline
  else .stable

/-- One row of the per-domain (or per-domain-per-segment) input dataframe
of the movement routine: a term with its aggregated tier-3 percentage and
dominant index. -/
structure TermStat where
  term : Term
  t3_pct : ℚ
  dominant_index : ℚ
deriving DecidableEq, Repr

/-- One movement row appended by the classifier
(movement.py lines 38-45). -/
structure MovementRecord where
  from_term : Term
  to_term : Term
  t3_change : ℚ
  index_change : ℚ
  movement : Movement
deriving DecidableEq, Repr

/-- Whether any row of the data carries the given term. -/
def hasTerm (data : List TermStat) (t : Term) : Bool :=
  data.any fun r => decide (r.term = t)

/-- The sorted unique terms of the data
(sorted on the term column, movement.py line 27): over the four-valued
term enumeration, sorting the unique present labels is the same as
filtering the canonical ascending list by presence. -/
def sortedTerms (data : List TermStat) : List Term :=
  [Term.t1, Term.t2, Term.t3, Term.t4].filter (hasTerm data)

/-- Consecutive pairs of a list, the pairing of the loop
for i in range(len(terms) - 1) in movement.py lines 29-31. -/
def consecutivePairs : List Term → List (Term × Term)
  | a :: b :: rest => (a, b) :: consecutivePairs (b :: rest)
  | _ => []

/-- The first row of the data carrying the given term
(iloc[0] on the rows selected by term, movement.py lines 30-31). -/
def firstRow (data : List TermStat) (t : Term) : Option TermStat :=
  data.find? fun r => decide (r.term = t)

/-- The movement loop of _calculate_domain_movements
(movement.py lines 26-45, identically tier_progression.py lines 373-393):
for each consecutive pair of present terms, the deltas of tier-3
percentage and dominant index and the threshold classification. -/
def calculateDomainMovements (data : List TermStat) : List MovementRecord :=
  (consecutivePairs (sortedTerms data)).filterMap fun p =>
    (firstRow data p.1).bind fun cur =>
      (firstRow data p.2).bind fun nxt =>
        some { from_term := p.1
               to_term := p.2
               t3_change := nxt.t3_pct - cur.t3_pct
               index_change := nxt.dominant_index - cur.dominant_index
               movement := classifyMovement (nxt.t3_pct - cur.t3_pct) }

/-- Absolute value as Python computes it, q if q >= 0 else -q;
kept as an explicit conditional so that concrete series evaluate. -/
def ratAbs (q : ℚ) : ℚ := if q < 0 then -q else q

/-- Pattern labels of the three-term trajectory detectors. -/
inductive Pattern where
  | uShape | growth | decline | stable | volatile
deriving DecidableEq, Repr

/-- The pattern chain of _create_pattern_analysis
(pages/1_Classroom_Observations/tier_progression.py lines 586-601), on
the tier-3 percentages (a, b, c) of the first three terms: note its
U-shape test is b < a and c > b, with no lower bound on c. -/
def detectPattern (a b c : ℚ) : Pattern :=
  if b < a ∧ c > b then .uShape
  else if c > b ∧ b > a then .growth
  else if a > b ∧ b > c then .decline
  else if ratAbs (a - c) < 5 then .stable
  else .volatile

/-- The pattern chain of _identify_patterns
(pages/1_Classroom_Observations/sections.py lines 399-407): its U-shape
test does require c >= a, it has no stable branch, its last branch labels
Volatile only when |c - a| < 3 and |b - a| > 8, and a series matching no
branch gets no label at all (embedded as none). -/
def identifyPattern (a b c : ℚ) : Option Pattern :=
  if b < a ∧ c > b ∧ c ≥ a then some .uShape
  else if c > b ∧ b > a then some .growth
  else if a > b ∧ b > c then some .decline
  else if ratAbs (c - a) < 3 ∧ ratAbs (b - a) > 8 then some .volatile
  else none

/-- The pattern rule exactly as the specification words it (section 4.3),
for comparison with the two source chains: rule 1 requires c >= a, rule 4
is the 5-point stable band, rule 5 is Volatile. -/
def specPattern (a b c : ℚ) : Pattern :=
  if b < a ∧ c > b ∧ c ≥ a then .uShape
  else if c > b ∧ b > a then .growth
  else if a > b ∧ b > c then .decline
  else if ratAbs (a - c) < 5 then .stable
  else .volatile

/-- A single observation record: its (term, domain, segment) bucket is
non-empty but holds fewer than 3 rows. -/
def exSmallRecords : List ObservationRecord :=
  [⟨.t1, "LE", .tier3, 3, none⟩]

/-- Three observations sharing the key (Term 1, LE, no segment), one per
tier, so the bucket passes the size-3 gate. -/
def exAggRecords : List ObservationRecord :=
  [⟨.t1, "LE", .tier1, 1, none⟩,
   ⟨.t1, "LE", .tier2, 2, none⟩,
   ⟨.t1, "LE", .tier3, 3, none⟩]

/-- The aggregated row the engine emits for exAggRecords. -/
def exAggStat : AggregatedStat :=
  mkStat .t1 "LE" none (bucket exAggRecords .t1 "LE" none)

/-- Concrete two-term movement input: tier-3 share rises from 10 to 12
(a delta of exactly the 2-point threshold). -/
def exMoveData : List TermStat :=
  [⟨.t1, 10, 3/2⟩, ⟨.t2, 12, 8/5⟩]

/-- The single movement row the classifier emits on exMoveData. -/
def exMoveRec : MovementRecord :=
  ⟨.t1, .t2, 2, 1/10, .stable⟩

/-- Movement input in which Term 2 is absent: only Term 1 and Term 3
carry data. -/
def exGapData : List TermStat :=
  [⟨.t1, 10, 1⟩, ⟨.t3, 30, 2⟩]

/-- The movement row the classifier emits on exGapData: it spans the
missing Term 2. -/
def exGapRec : MovementRecord :=
  ⟨.t1, .t3, 20, 1, .improvement⟩

/-- One aggregated row at the compared (latest) term as seen by
_analyze_segment_differences (sections.py lines 330-355): a segment
value, a domain and a tier-3 percentage. -/
structure SegRow where
  segment : String
  domain : String
  t3_pct : ℚ
deriving DecidableEq, Repr

/-- The distinct segment values present at the term — the columns of the
unstacked groupby table (sections.py lines 336-341). -/
def segColumns (rows : List SegRow) : List String :=
  (rows.map (·.segment)).dedup

/-- The distinct domains present at the term — the index of the
unstacked table. -/
def segDomains (rows : List SegRow) : List String :=
  (rows.map (·.domain)).dedup

/-- The rows of one (domain, segment) cell of the table. -/
def cellRows (rows : List SegRow) (d s : String) : List SegRow :=
  rows.filter fun r => decide (r.domain = d) && decide (r.segment = s)

/-- The value of one cell: the mean tier-3 percentage of its rows, or 0
when the cell is empty (the fillna(0) of sections.py line 340). -/
def cellValue (rows : List SegRow) (d s : String) : ℚ :=
  if (cellRows rows d s).length = 0 then 0
  else ((cellRows rows d s).map (·.t3_pct)).sum / (cellRows rows d s).length

/-- Maximum of a list of rationals (0 on the empty list, which the
callers below never pass). -/
def rowMax : List ℚ → ℚ
  | [] => 0
  | x :: xs => xs.foldl max x

/-- Minimum of a list of rationals (0 on the empty list). -/
def rowMin : List ℚ → ℚ
  | [] => 0
  | x :: xs => xs.foldl min x

/-- The max - min tier-3 spread of one domain row across all segment
columns (sections.py line 353), zeros standing in for absent cells. -/
def domainGap (rows : List SegRow) (d : String) : ℚ :=
  rowMax ((segColumns rows).map (cellValue rows d)) -
    rowMin ((segColumns rows).map (cellValue rows d))

/-- The gap report of _analyze_segment_differences: nothing when fewer
than 2 segment columns exist at the term (sections.py line 342), else
one (domain, gap) entry per domain whose spread strictly exceeds 10
points (line 354). -/
def segmentGaps (rows : List SegRow) : List (String × ℚ) :=
  if (segColumns rows).length < 2 then []
  else (segDomains rows).filterMap fun d =>
    if domainGap rows d > 10 then some (d, domainGap rows d) else none

/-- Two segments, one domain present in both: its spread is 20 points. -/
def exSegRows : List SegRow :=
  [⟨"A", "LE", 50⟩, ⟨"B", "LE", 30⟩]

/-- Two segments, each with a different domain: domain LE appears only
in segment A. -/
def exLoneRows : List SegRow :=
  [⟨"A", "LE", 50⟩, ⟨"B", "SE", 20⟩]

/-- A single row, hence a single segment column. -/
def exOneSeg : List SegRow :=
  [⟨"A", "LE", 50⟩]

/-- One aggregated latest-term row as seen by
_provide_strategic_recommendations (sections.py lines 410-440): a
domain with its tier-1 share, tier-3 share and dominant index. -/
structure DomRow where
  domain : String
  t1 : ℚ
  t3 : ℚ
  idx : ℚ
deriving DecidableEq, Repr

/-- The distinct domains of the latest-term rows — the index of the
per-domain groupby summary. -/
def domainList (rows : List DomRow) : List String :=
  (rows.map (·.domain)).dedup

/-- Mean tier-1 share of a domain over the latest-term rows
(the t1 aggregation of sections.py lines 416-421). -/
def meanT1 (rows : List DomRow) (d : String) : ℚ :=
  ((rows.filter fun r => decide (r.domain = d)).map (·.t1)).sum /
    (rows.filter fun r => decide (r.domain = d)).length

/-- Mean dominant index of a domain over the latest-term rows. -/
def meanIdx (rows : List DomRow) (d : String) : ℚ :=
  ((rows.filter fun r => decide (r.domain = d)).map (·.idx)).sum /
    (rows.filter fun r => decide (r.domain = d)).length

/-- The domains named by the Foundational Focus call-out: mean tier-1
share strictly above 40 (sections.py line 433). -/
def highT1 (rows : List DomRow) : List String :=
  (domainList rows).filter fun d => decide (meanT1 rows d > 40)

/-- The domains named by the Progression Acceleration call-out: mean
dominant index strictly below 2 (sections.py line 438). -/
def lowIdx (rows : List DomRow) : List String :=
  (domainList rows).filter fun d => decide (meanIdx rows d < 2)

-- ===================== Theorems =====================

/-- The conditional absolute value agrees with the lattice one. -/
theorem ratAbs_eq_abs (q : ℚ) : ratAbs q = |q| := by
  unfold ratAbs
  split_ifs with h
  · exact (abs_of_neg h).symm
  · exact (abs_of_nonneg (not_lt.mp h)).symm

/-- Threshold characterization of the movement label expression. -/
theorem classifyMovement_spec (d : ℚ) :
    (classifyMovement d = .improvement ↔ d > 2) ∧
    (classifyMovement d = .decline ↔ d < -2) ∧
    (classifyMovement d = .stable ↔ -2 ≤ d ∧ d ≤ 2) := by
  unfold classifyMovement
  split_ifs with h1 h2
  · exact ⟨iff_of_true rfl h1,
      iff_of_false (by simp) (by linarith),
      iff_of_false (by simp) (by rintro ⟨ha, hb⟩; linarith)⟩
  · exact ⟨iff_of_false (by simp) (by linarith),
      iff_of_true rfl h2,
      iff_of_false (by simp) (by rintro ⟨ha, hb⟩; linarith)⟩
  · exact ⟨iff_of_false (by simp) (by linarith),
      iff_of_false (by simp) (by linarith),
      iff_of_true rfl ⟨by linarith, by linarith⟩⟩

/-- A row of the movement output carries the classification of its own
tier-3 delta. -/
theorem mem_calculateDomainMovements (data : List TermStat)
    (rec : MovementRecord) (h : rec ∈ calculateDomainMovements data) :
    ∃ p ∈ consecutivePairs (sortedTerms data),
      rec.from_term = p.1 ∧ rec.to_term = p.2 ∧
      rec.movement = classifyMovement rec.t3_change := by
  unfold calculateDomainMovements at h
  rw [List.mem_filterMap] at h
  obtain ⟨p, hp, hf⟩ := h
  refine ⟨p, hp, ?_⟩
  cases hc : firstRow data p.1 with
  | none => simp [hc] at hf
  | some cur =>
    cases hn : firstRow data p.2 with
    | none => simp [hc, hn] at hf
    | some nxt =>
      simp only [hc, hn, Option.some_bind, Option.some.injEq] at hf
      subst hf
      exact ⟨rfl, rfl, rfl⟩

/-- C4: every consecutive-term pair classified by the movement routine is
labeled Improvement exactly when its tier-3 delta strictly exceeds +2
percentage points, Decline exactly when it is strictly below -2, and
Stable otherwise; in particular a delta of exactly 2 (or -2) is Stable. -/
theorem movement_threshold_boundary (data : List TermStat)
    (rec : MovementRecord) (h : rec ∈ calculateDomainMovements data) :
    (rec.movement = .improvement ↔ rec.t3_change > 2) ∧
    (rec.movement = .decline ↔ rec.t3_change < -2) ∧
    (rec.movement = .stable ↔ -2 ≤ rec.t3_change ∧ rec.t3_change ≤ 2) ∧
    (rec.t3_change = 2 → rec.movement = .stable) ∧
    (rec.t3_change = -2 → rec.movement = .stable) := by
  obtain ⟨p, _, _, _, hcls⟩ := mem_calculateDomainMovements data rec h
  rw [hcls]
  obtain ⟨h1, h2, h3⟩ := classifyMovement_spec rec.t3_change
  refine ⟨h1, h2, h3, ?_, ?_⟩ <;> intro he <;> rw [he] <;> decide

/-- Witness for C4 at a concrete input: a delta of exactly 2 is emitted
and classified Stable. -/
theorem movement_threshold_boundary_witness :
    (exMoveRec.movement = .improvement ↔ exMoveRec.t3_change > 2) ∧
    (exMoveRec.movement = .decline ↔ exMoveRec.t3_change < -2) ∧
    (exMoveRec.movement = .stable ↔
      -2 ≤ exMoveRec.t3_change ∧ exMoveRec.t3_change ≤ 2) ∧
    (exMoveRec.t3_change = 2 → exMoveRec.movement = .stable) ∧
    (exMoveRec.t3_change = -2 → exMoveRec.movement = .stable) :=
  movement_threshold_boundary exMoveData exMoveRec (by
    norm_num +decide [calculateDomainMovements, exMoveData, exMoveRec,
      sortedTerms, hasTerm, consecutivePairs, firstRow, classifyMovement])

/-- C2 counterexample: on the series (30, 10, 20) the claimed rule order
(with c >= a required for U-Shape) yields Volatile, but the
tier_progression detector returns U-Shape Recovery, because its U-shape
test omits the c >= a condition. -/
theorem pattern_rules_cex :
    specPattern 30 10 20 = .volatile ∧ detectPattern 30 10 20 = .uShape := by
  norm_num [specPattern, detectPattern, ratAbs]

/-- C2 amended: full first-match characterization of both source pattern
chains.  The tier_progression chain labels U-Shape whenever b < a and
c > b (no c >= a requirement), then Growth, Decline, the 5-point Stable
band, else Volatile.  The sections chain requires c >= a for U-Shape, has
no Stable label, labels Volatile only when |c - a| < 3 and |b - a| > 8,
and otherwise yields no label. -/
theorem pattern_rules_amended (a b c : ℚ) :
    (detectPattern a b c = .uShape ↔ b < a ∧ c > b) ∧
    (detectPattern a b c = .growth ↔ ¬(b < a ∧ c > b) ∧ c > b ∧ b > a) ∧
    (detectPattern a b c = .decline ↔
      ¬(b < a ∧ c > b) ∧ ¬(c > b ∧ b > a) ∧ a > b ∧ b > c) ∧
    (detectPattern a b c = .stable ↔
      ¬(b < a ∧ c > b) ∧ ¬(c > b ∧ b > a) ∧ ¬(a > b ∧ b > c) ∧
        |a - c| < 5) ∧
    (detectPattern a b c = .volatile ↔
      ¬(b < a ∧ c > b) ∧ ¬(c > b ∧ b > a) ∧ ¬(a > b ∧ b > c) ∧
        ¬(|a - c| < 5)) ∧
    (identifyPattern a b c = some .uShape ↔ b < a ∧ c > b ∧ c ≥ a) ∧
    (identifyPattern a b c = some .growth ↔
      ¬(b < a ∧ c > b ∧ c ≥ a) ∧ c > b ∧ b > a) ∧
    (identifyPattern a b c = some .decline ↔
      ¬(b < a ∧ c > b ∧ c ≥ a) ∧ ¬(c > b ∧ b > a) ∧ a > b ∧ b > c) ∧
    (identifyPattern a b c = some .volatile ↔
      ¬(b < a ∧ c > b ∧ c ≥ a) ∧ ¬(c > b ∧ b > a) ∧ ¬(a > b ∧ b > c) ∧
        |c - a| < 3 ∧ |b - a| > 8) ∧
    identifyPattern a b c ≠ some .stable := by
  unfold detectPattern identifyPattern
  split_ifs <;> simp_all [ratAbs_eq_abs]

/-- C3 counterexample: the sections pattern chain returns no label at all
on the flat series (50, 50, 50), so the detectors do not always return
exactly one of the five labels. -/
theorem pattern_totality_cex : identifyPattern 50 50 50 = none := by
  norm_num [identifyPattern, ratAbs]

/-- C3 amended: the tier_progression detector is total, always returning
one of the five labels; the sections chain returns at most one label,
never Stable, and possibly none. -/
theorem pattern_totality_amended (a b c : ℚ) :
    (detectPattern a b c = .uShape ∨ detectPattern a b c = .growth ∨
     detectPattern a b c = .decline ∨ detectPattern a b c = .stable ∨
     detectPattern a b c = .volatile) ∧
    (identifyPattern a b c = none ∨
     ∃ p, identifyPattern a b c = some p ∧ p ≠ .stable) := by
  unfold detectPattern identifyPattern
  split_ifs <;> simp

/-- Every emitted aggregated row is the statistics of its own bucket and
that bucket passed the size-3 gate. -/
theorem mem_aggregate (records : List ObservationRecord)
    (stat : AggregatedStat) (h : stat ∈ aggregate records) :
    ∃ t d s, stat = mkStat t d s (bucket records t d s) ∧
      3 ≤ (bucket records t d s).length := by
  unfold aggregate at h
  rw [List.mem_filterMap] at h
  obtain ⟨k, hk, hf⟩ := h
  split_ifs at hf with hlen
  rw [Option.some.injEq] at hf
  exact ⟨k.1, k.2.1, k.2.2, hf.symm, by omega⟩

/-- The statistics of any bucket of at least 3 rows appear in the
aggregated output. -/
theorem mkStat_mem_aggregate (records : List ObservationRecord)
    (t : Term) (d : String) (s : Option String)
    (h3 : 3 ≤ (bucket records t d s).length) :
    mkStat t d s (bucket records t d s) ∈ aggregate records := by
  have hne : bucket records t d s ≠ [] := by
    intro he
    rw [he] at h3
    simp at h3
  obtain ⟨r, hr⟩ := List.exists_mem_of_ne_nil _ hne
  have hrmem := List.mem_filter.mp hr
  have hrk : r.term = t ∧ r.domain = d ∧ r.segment = s := by
    have := hrmem.2
    simp only [Bool.and_eq_true, decide_eq_true_eq] at this
    exact ⟨this.1.1, this.1.2, this.2⟩
  have hkey : (t, d, s) ∈ keys records := by
    unfold keys
    rw [List.mem_dedup]
    exact List.mem_map.mpr ⟨r, hrmem.1, by rw [hrk.1, hrk.2.1, hrk.2.2]⟩
  unfold aggregate
  rw [List.mem_filterMap]
  refine ⟨(t, d, s), hkey, ?_⟩
  show (if (bucket records t d s).length < 3 then none
    else some (mkStat t d s (bucket records t d s))) =
    some (mkStat t d s (bucket records t d s))
  rw [if_neg (by omega)]

/-- C1 counterexample: a non-empty bucket of a single record is silently
dropped by the aggregation of load_and_process_data, which skips every
group of fewer than 3 rows. -/
theorem aggregate_drops_small_bucket_cex :
    (bucket exSmallRecords .t1 "LE" none).length = 1 ∧
      aggregate exSmallRecords = [] := by
  decide

/-- C1 amended: the aggregation emits a row for every (term, domain,
segment) key whose bucket holds at least 3 source records (buckets of 1
or 2 records are dropped), and every emitted row has count at least 1. -/
theorem aggregate_covers_buckets (records : List ObservationRecord)
    (t : Term) (d : String) (s : Option String)
    (h3 : 3 ≤ (bucket records t d s).length) :
    ∃ stat ∈ aggregate records, stat.term = t ∧ stat.domain = d ∧
      stat.segment_value = s ∧ 1 ≤ stat.observation_count := by
  refine ⟨mkStat t d s (bucket records t d s),
    mkStat_mem_aggregate records t d s h3, rfl, rfl, rfl, ?_⟩
  show 1 ≤ (bucket records t d s).length
  omega

/-- Witness for C1 amended at a concrete input: the 3-record bucket of
exAggRecords yields a row. -/
theorem aggregate_covers_buckets_witness :
    ∃ stat ∈ aggregate exAggRecords, stat.term = .t1 ∧ stat.domain = "LE" ∧
      stat.segment_value = none ∧ 1 ≤ stat.observation_count :=
  aggregate_covers_buckets exAggRecords .t1 "LE" none (by decide)

/-- The three tier counts of a group partition it. -/
theorem tierCount_sum (g : List ObservationRecord) :
    tierCount g .tier1 + tierCount g .tier2 + tierCount g .tier3 =
      g.length := by
  induction g with
  | nil => rfl
  | cons r g ih =>
    unfold tierCount at *
    cases hr : r.tier <;> simp [List.filter_cons, hr] <;> omega

/-- Arithmetic of the weighted tier index over counts c1 + c2 + c3 = n:
bounds and the extremal characterizations. -/
theorem dominant_index_arith (c1 c2 c3 n : ℕ) (hn : 0 < n)
    (hsum : c1 + c2 + c3 = n) :
    1 ≤ (1 * ((c1:ℚ)/n*100) + 2 * ((c2:ℚ)/n*100) + 3 * ((c3:ℚ)/n*100)) / 100 ∧
    (1 * ((c1:ℚ)/n*100) + 2 * ((c2:ℚ)/n*100) + 3 * ((c3:ℚ)/n*100)) / 100 ≤ 3 ∧
    ((1 * ((c1:ℚ)/n*100) + 2 * ((c2:ℚ)/n*100) + 3 * ((c3:ℚ)/n*100)) / 100 = 3 ↔
      (c3:ℚ)/n*100 = 100) ∧
    ((1 * ((c1:ℚ)/n*100) + 2 * ((c2:ℚ)/n*100) + 3 * ((c3:ℚ)/n*100)) / 100 = 1 ↔
      (c1:ℚ)/n*100 = 100) := by
  have hnq : (0:ℚ) < (n:ℚ) := by exact_mod_cast hn
  have hne : (n:ℚ) ≠ 0 := ne_of_gt hnq
  have hs : (c1:ℚ) + (c2:ℚ) + (c3:ℚ) = (n:ℚ) := by exact_mod_cast hsum
  have hq1 : (0:ℚ) ≤ (c1:ℚ) := Nat.cast_nonneg c1
  have hq2 : (0:ℚ) ≤ (c2:ℚ) := Nat.cast_nonneg c2
  have hq3 : (0:ℚ) ≤ (c3:ℚ) := Nat.cast_nonneg c3
  have key : (1 * ((c1:ℚ)/n*100) + 2 * ((c2:ℚ)/n*100) + 3 * ((c3:ℚ)/n*100)) / 100 =
      ((c1:ℚ) + 2*(c2:ℚ) + 3*(c3:ℚ)) / (n:ℚ) := by
    field_simp
    ring
  rw [key]
  refine ⟨?_, ?_, ?_, ?_⟩
  · rw [le_div_iff₀ hnq]
    linarith
  · rw [div_le_iff₀ hnq]
    linarith
  · rw [div_eq_iff hne]
    constructor
    · intro h
      have hc1 : (c1:ℚ) = 0 := by linarith
      have hc2 : (c2:ℚ) = 0 := by linarith
      have hc3 : (c3:ℚ) = (n:ℚ) := by linarith
      rw [hc3]
      field_simp
    · intro h
      have hc3 : (c3:ℚ) = (n:ℚ) := by
        field_simp at h
        linarith
      linarith
  · rw [div_eq_iff hne]
    constructor
    · intro h
      have hc2 : (c2:ℚ) = 0 := by linarith
      have hc3 : (c3:ℚ) = 0 := by linarith
      have hc1 : (c1:ℚ) = (n:ℚ) := by linarith
      rw [hc1]
      field_simp
    · intro h
      have hc1 : (c1:ℚ) = (n:ℚ) := by
        field_simp at h
        linarith
      linarith

/-- The dominant-index facts for the statistics of one non-empty group. -/
theorem mkStat_dominant (t : Term) (d : String) (s : Option String)
    (g : List ObservationRecord) (hg : g ≠ []) :
    (mkStat t d s g).dominant_index =
      (1 * (mkStat t d s g).tier_mix_t1_pct +
        2 * (mkStat t d s g).tier_mix_t2_pct +
        3 * (mkStat t d s g).tier_mix_t3_pct) / 100 ∧
    1 ≤ (mkStat t d s g).dominant_index ∧
    (mkStat t d s g).dominant_index ≤ 3 ∧
    ((mkStat t d s g).dominant_index = 3 ↔
      (mkStat t d s g).tier_mix_t3_pct = 100) ∧
    ((mkStat t d s g).dominant_index = 1 ↔
      (mkStat t d s g).tier_mix_t1_pct = 100) := by
  have hn : 0 < g.length := List.length_pos.mpr hg
  have harith := dominant_index_arith (tierCount g .tier1)
    (tierCount g .tier2) (tierCount g .tier3) g.length hn (tierCount_sum g)
  exact ⟨rfl, harith.1, harith.2.1, harith.2.2.1, harith.2.2.2⟩

/-- C6: every emitted aggregated row has dominant index equal to
(1*t1% + 2*t2% + 3*t3%) / 100, lying in [1, 3], equal to 3 exactly when
the tier-3 share is 100 and to 1 exactly when the tier-1 share is 100. -/
theorem dominant_index_bounds (records : List ObservationRecord)
    (stat : AggregatedStat) (h : stat ∈ aggregate records) :
    stat.dominant_index =
      (1 * stat.tier_mix_t1_pct + 2 * stat.tier_mix_t2_pct +
        3 * stat.tier_mix_t3_pct) / 100 ∧
    1 ≤ stat.dominant_index ∧ stat.dominant_index ≤ 3 ∧
    (stat.dominant_index = 3 ↔ stat.tier_mix_t3_pct = 100) ∧
    (stat.dominant_index = 1 ↔ stat.tier_mix_t1_pct = 100) := by
  obtain ⟨t, d, s, rfl, hlen⟩ := mem_aggregate records stat h
  exact mkStat_dominant t d s _ (by
    intro he
    rw [he] at hlen
    simp at hlen)

/-- Witness for C6 at a concrete input: the emitted row of the three-tier
bucket of exAggRecords. -/
theorem dominant_index_bounds_witness :
    exAggStat.dominant_index =
      (1 * exAggStat.tier_mix_t1_pct + 2 * exAggStat.tier_mix_t2_pct +
        3 * exAggStat.tier_mix_t3_pct) / 100 ∧
    1 ≤ exAggStat.dominant_index ∧ exAggStat.dominant_index ≤ 3 ∧
    (exAggStat.dominant_index = 3 ↔ exAggStat.tier_mix_t3_pct = 100) ∧
    (exAggStat.dominant_index = 1 ↔ exAggStat.tier_mix_t1_pct = 100) :=
  dominant_index_bounds exAggRecords exAggStat
    (mkStat_mem_aggregate exAggRecords .t1 "LE" none (by decide))

/-- C10: every emitted aggregated row counts at least 3 observations, its
count is the size of its own (term, domain, segment) bucket, and that
bucket has at least 3 records — equivalently, buckets of fewer than 3
source records are omitted from the aggregated table. -/
theorem aggregate_min_count (records : List ObservationRecord)
    (stat : AggregatedStat) (h : stat ∈ aggregate records) :
    3 ≤ stat.observation_count ∧
    stat.observation_count =
      (bucket records stat.term stat.domain stat.segment_value).length ∧
    3 ≤ (bucket records stat.term stat.domain stat.segment_value).length := by
  obtain ⟨t, d, s, rfl, hlen⟩ := mem_aggregate records stat h
  exact ⟨hlen, rfl, hlen⟩

/-- Witness for C10 at a concrete input: the emitted row of exAggRecords
counts its 3-record bucket. -/
theorem aggregate_min_count_witness :
    3 ≤ exAggStat.observation_count ∧
    exAggStat.observation_count =
      (bucket exAggRecords exAggStat.term exAggStat.domain
        exAggStat.segment_value).length ∧
    3 ≤ (bucket exAggRecords exAggStat.term exAggStat.domain
        exAggStat.segment_value).length :=
  aggregate_min_count exAggRecords exAggStat
    (mkStat_mem_aggregate exAggRecords .t1 "LE" none (by decide))

/-- A consecutive pair of the canonical term list filtered by a
presence predicate consists of two present terms in ascending order with
no present term strictly between them. -/
theorem consecutivePairs_filter (p : Term → Bool) (a b : Term)
    (h : (a, b) ∈ consecutivePairs
      ([Term.t1, Term.t2, Term.t3, Term.t4].filter p)) :
    p a = true ∧ p b = true ∧ Term.order a < Term.order b ∧
    ∀ u : Term, Term.order a < Term.order u →
      Term.order u < Term.order b → p u = false := by
  cases h1 : p .t1 <;> cases h2 : p .t2 <;> cases h3 : p .t3 <;>
    cases h4 : p .t4 <;>
    simp [List.filter_cons, h1, h2, h3, h4, consecutivePairs] at h <;>
    first
    | (rcases h with ⟨rfl, rfl⟩ | ⟨rfl, rfl⟩ | ⟨rfl, rfl⟩ <;>
        refine ⟨by assumption, by assumption, by decide, ?_⟩ <;>
        (intro u hu1 hu2
         cases u <;> simp only [Term.order] at hu1 hu2 <;>
           first | omega | assumption))
    | (rcases h with ⟨rfl, rfl⟩ | ⟨rfl, rfl⟩ <;>
        refine ⟨by assumption, by assumption, by decide, ?_⟩ <;>
        (intro u hu1 hu2
         cases u <;> simp only [Term.order] at hu1 hu2 <;>
           first | omega | assumption))
    | (rcases h with ⟨rfl, rfl⟩ <;>
        refine ⟨by assumption, by assumption, by decide, ?_⟩ <;>
        (intro u hu1 hu2
         cases u <;> simp only [Term.order] at hu1 hu2 <;>
           first | omega | assumption))

/-- C5 counterexample: on data holding only Term 1 and Term 3, the
classifier emits a movement row from Term 1 to Term 3, whose terms are
not adjacent in the canonical ordering (their positions differ by 2). -/
theorem movement_adjacency_cex :
    exGapRec ∈ calculateDomainMovements exGapData ∧
    Term.order exGapRec.to_term - Term.order exGapRec.from_term = 2 := by
  refine ⟨?_, by decide⟩
  norm_num +decide [calculateDomainMovements, exGapData, exGapRec,
    sortedTerms, hasTerm, consecutivePairs, firstRow, classifyMovement]

/-- C5 amended: every emitted movement row goes from an earlier to a
strictly later present term with no present term strictly between the
two — the pair is consecutive among the terms present in the data, but
when an intermediate term is missing the pair spans the gap rather than
being suppressed. -/
theorem movement_pairs_consecutive (data : List TermStat)
    (rec : MovementRecord) (h : rec ∈ calculateDomainMovements data) :
    Term.order rec.from_term < Term.order rec.to_term ∧
    hasTerm data rec.from_term = true ∧
    hasTerm data rec.to_term = true ∧
    ∀ u : Term, Term.order rec.from_term < Term.order u →
      Term.order u < Term.order rec.to_term → hasTerm data u = false := by
  obtain ⟨p, hp, hfrom, hto, _⟩ := mem_calculateDomainMovements data rec h
  have hp2 : (p.1, p.2) ∈ consecutivePairs
      ([Term.t1, Term.t2, Term.t3, Term.t4].filter (hasTerm data)) := by
    rw [Prod.mk.eta]
    exact hp
  obtain ⟨hpa, hpb, hord, hbetween⟩ :=
    consecutivePairs_filter (hasTerm data) p.1 p.2 hp2
  rw [hfrom, hto]
  exact ⟨hord, hpa, hpb, hbetween⟩

/-- Witness for C5 amended at a concrete input: the Term 1 to Term 3 row
of exGapData has ascending present endpoints and only the absent Term 2
between them. -/
theorem movement_pairs_consecutive_witness :
    Term.order exGapRec.from_term < Term.order exGapRec.to_term ∧
    hasTerm exGapData exGapRec.from_term = true ∧
    hasTerm exGapData exGapRec.to_term = true ∧
    ∀ u : Term, Term.order exGapRec.from_term < Term.order u →
      Term.order u < Term.order exGapRec.to_term →
        hasTerm exGapData u = false :=
  movement_pairs_consecutive exGapData exGapRec (by
    norm_num +decide [calculateDomainMovements, exGapData, exGapRec,
      sortedTerms, hasTerm, consecutivePairs, firstRow, classifyMovement])

/-- Every entry of the gap report carries its domain's spread, exceeds
the 10-point threshold, names a present domain, and can only exist when
at least 2 segment columns are present. -/
theorem mem_segmentGaps (rows : List SegRow) (d : String) (g : ℚ)
    (h : (d, g) ∈ segmentGaps rows) :
    g = domainGap rows d ∧ 10 < g ∧ d ∈ segDomains rows ∧
      2 ≤ (segColumns rows).length := by
  unfold segmentGaps at h
  split_ifs at h with hguard
  · simp at h
  · rw [List.mem_filterMap] at h
    obtain ⟨d', hd', hf⟩ := h
    split_ifs at hf with hgap
    rw [Option.some.injEq, Prod.mk.injEq] at hf
    obtain ⟨rfl, rfl⟩ := hf
    exact ⟨rfl, hgap, hd', by omega⟩

/-- C7: a (domain, gap) entry is reported only when the domain's max-min
tier-3 spread strictly exceeds 10 points; a domain whose spread is at
most 10 (in particular exactly 10) is omitted entirely. -/
theorem segment_gap_threshold (rows : List SegRow) (d : String) (g : ℚ) :
    ((d, g) ∈ segmentGaps rows → g = domainGap rows d ∧ 10 < g) ∧
    (domainGap rows d ≤ 10 → (d, g) ∉ segmentGaps rows) := by
  constructor
  · intro h
    obtain ⟨hg, hgt, _, _⟩ := mem_segmentGaps rows d g h
    exact ⟨hg, hgt⟩
  · intro hle h
    obtain ⟨hg, hgt, _, _⟩ := mem_segmentGaps rows d g h
    rw [hg] at hgt
    linarith

/-- Witness for C7 at a concrete input: the 20-point spread of domain LE
across segments A and B is reported and exceeds the threshold. -/
theorem segment_gap_threshold_witness :
    (20:ℚ) = domainGap exSegRows "LE" ∧ (10:ℚ) < 20 :=
  (segment_gap_threshold exSegRows "LE" 20).1 (by
    norm_num +decide [segmentGaps, segColumns, segDomains, domainGap,
      cellValue, cellRows, rowMax, rowMin, exSegRows, List.dedup])

/-- C8 counterexample: in exLoneRows the domain LE is present in exactly
one segment value (A), yet the comparator still reports a 50-point gap
for LE — the absent segment cell is treated as 0 rather than the domain
being skipped. -/
theorem segment_lone_domain_cex :
    ((exLoneRows.filter fun r => decide (r.domain = "LE")).map
      (·.segment)) = ["A"] ∧
    ("LE", 50) ∈ segmentGaps exLoneRows := by
  refine ⟨by decide, ?_⟩
  norm_num +decide [segmentGaps, segColumns, segDomains, domainGap,
    cellValue, cellRows, rowMax, rowMin, exLoneRows, List.dedup]

/-- C8 amended: the at-least-2 requirement is global, not per domain —
with fewer than 2 distinct segment values present at the term the whole
comparison is skipped, and every reported entry implies at least 2
segment columns; a domain present in only one segment value is not
skipped, its missing cells being filled with 0. -/
theorem segment_guard_amended (rows : List SegRow) :
    ((segColumns rows).length < 2 → segmentGaps rows = []) ∧
    (∀ d g, (d, g) ∈ segmentGaps rows → 2 ≤ (segColumns rows).length) := by
  constructor
  · intro hguard
    unfold segmentGaps
    rw [if_pos hguard]
  · intro d g h
    exact (mem_segmentGaps rows d g h).2.2.2

/-- Witness for C8 amended at a concrete input: a single segment column
yields an empty report. -/
theorem segment_guard_amended_witness :
    segmentGaps exOneSeg = [] :=
  (segment_guard_amended exOneSeg).1 (by decide)

/-- C9: the Foundational Focus call-out names exactly the present
domains whose mean tier-1 share strictly exceeds 40, and the Progression
Acceleration call-out exactly the present domains whose mean dominant
index is strictly below 2; a domain at exactly 40 (or exactly 2) is not
flagged. -/
theorem recommendation_thresholds (rows : List DomRow) (d : String) :
    (d ∈ highT1 rows ↔ d ∈ domainList rows ∧ 40 < meanT1 rows d) ∧
    (d ∈ lowIdx rows ↔ d ∈ domainList rows ∧ meanIdx rows d < 2) := by
  constructor <;> simp [highT1, lowIdx, List.mem_filter]

end FellowshipDashboard
